import Mathlib

/-!
Verification of the Pokemon Battle Simulator's battle-engine specification.

The repository ships the engine's unit and integration tests; the engine
itself (Pokemon/Move/Team model, TypeEffectiveness, Battle, AI strategies,
BattleEventManager, MoveTypeMapping) lives outside the shipped sources, so
every definition below is modelled from the specification (spec.md), with
concrete table values fixed by the expectations of the repository's unit
tests. Machine doubles only ever hold the values 0, 0.25, 0.5, 1, 2, 4 and
small exact fractions here, so they are embedded as rationals.
-/

/-- Modelled from the spec: the elemental types used by the Type
Effectiveness Table (§4.1) and the Creature/Move model (§3). The 18 type
names are those exercised by the repository's tests. -/
inductive PType where
  | normal | fire | water | electric | grass | ice | fighting | poison
  | ground | flying | psychic | bug | rock | ghost | dragon | dark
  | steel | fairy
  deriving DecidableEq, Fintype, Repr

/-- Modelled from the spec: status conditions (§3): None/Poison/Burn/
Paralysis/Sleep/Freeze, at most one active at a time. -/
inductive StatusCondition where
  | NONE | POISON | BURN | PARALYSIS | SLEEP | FREEZE
  deriving DecidableEq, Repr

/-- Modelled from the spec: a move's damage class (§3): Physical/Special/
Status. -/
inductive DamageClass where
  | physical | special | status
  deriving DecidableEq, Repr

/-- Modelled from the spec: the single-type effectiveness lookup of the
Type Effectiveness Table (§4.1). Each entry is the multiplier for the
attacking type (first argument) against one defending type (second
argument); unlisted pairs are neutral (1). The values are the standard
per-type chart, with the entries pinned by the repository's unit tests
(test_battle_regression.cpp TypeEffectivenessCalculationAccuracy and
test_ai_strategy.cpp TypeEffectivenessCalculation/DualTypeEffectiveness);
in particular those tests require electric to have no effect on both
ground and flying defenders. -/
def typeChart : PType → PType → ℚ
  | .normal, .rock => 1/2
  | .normal, .ghost => 0
  | .normal, .steel => 1/2
  | .fire, .fire => 1/2
  | .fire, .water => 1/2
  | .fire, .grass => 2
  | .fire, .ice => 2
  | .fire, .bug => 2
  | .fire, .rock => 1/2
  | .fire, .dragon => 1/2
  | .fire, .steel => 2
  | .water, .fire => 2
  | .water, .water => 1/2
  | .water, .grass => 1/2
  | .water, .ground => 2
  | .water, .rock => 2
  | .water, .dragon => 1/2
  | .electric, .water => 2
  | .electric, .electric => 1/2
  | .electric, .grass => 1/2
  | .electric, .ground => 0
  | .electric, .flying => 0
  | .electric, .dragon => 1/2
  | .grass, .fire => 1/2
  | .grass, .water => 2
  | .grass, .grass => 1/2
  | .grass, .poison => 1/2
  | .grass, .ground => 2
  | .grass, .flying => 1/2
  | .grass, .bug => 1/2
  | .grass, .rock => 2
  | .grass, .dragon => 1/2
  | .grass, .steel => 1/2
  | .ice, .fire => 1/2
  | .ice, .water => 1/2
  | .ice, .grass => 2
  | .ice, .ice => 1/2
  | .ice, .ground => 2
  | .ice, .flying => 2
  | .ice, .dragon => 2
  | .ice, .steel => 1/2
  | .fighting, .normal => 2
  | .fighting, .ice => 2
  | .fighting, .poison => 1/2
  | .fighting, .flying => 1/2
  | .fighting, .psychic => 1/2
  | .fighting, .bug => 1/2
  | .fighting, .rock => 2
  | .fighting, .ghost => 0
  | .fighting, .dark => 2
  | .fighting, .steel => 2
  | .fighting, .fairy => 1/2
  | .poison, .grass => 2
  | .poison, .poison => 1/2
  | .poison, .ground => 1/2
  | .poison, .rock => 1/2
  | .poison, .ghost => 1/2
  | .poison, .steel => 0
  | .poison, .fairy => 2
  | .ground, .fire => 2
  | .ground, .electric => 2
  | .ground, .grass => 1/2
  | .ground, .poison => 2
  | .ground, .flying => 0
  | .ground, .bug => 1/2
  | .ground, .rock => 2
  | .ground, .steel => 2
  | .flying, .electric => 1/2
  | .flying, .grass => 2
  | .flying, .fighting => 2
  | .flying, .bug => 2
  | .flying, .rock => 1/2
  | .flying, .steel => 1/2
  | .psychic, .fighting => 2
  | .psychic, .poison => 2
  | .psychic, .psychic => 1/2
  | .psychic, .dark => 0
  | .psychic, .steel => 1/2
  | .bug, .fire => 1/2
  | .bug, .grass => 2
  | .bug, .fighting => 1/2
  | .bug, .poison => 1/2
  | .bug, .flying => 1/2
  | .bug, .psychic => 2
  | .bug, .ghost => 1/2
  | .bug, .dark => 2
  | .bug, .steel => 1/2
  | .bug, .fairy => 1/2
  | .rock, .fire => 2
  | .rock, .ice => 2
  | .rock, .fighting => 1/2
  | .rock, .ground => 1/2
  | .rock, .flying => 2
  | .rock, .bug => 2
  | .rock, .steel => 1/2
  | .ghost, .normal => 0
  | .ghost, .psychic => 2
  | .ghost, .ghost => 2
  | .ghost, .dark => 1/2
  | .dragon, .dragon => 2
  | .dragon, .steel => 1/2
  | .dragon, .fairy => 0
  | .dark, .fighting => 1/2
  | .dark, .psychic => 2
  | .dark, .ghost => 2
  | .dark, .dark => 1/2
  | .dark, .fairy => 1/2
  | .steel, .fire => 1/2
  | .steel, .water => 1/2
  | .steel, .electric => 1/2
  | .steel, .ice => 2
  | .steel, .rock => 2
  | .steel, .steel => 1/2
  | .steel, .fairy => 2
  | .fairy, .fire => 1/2
  | .fairy, .fighting => 2
  | .fairy, .poison => 1/2
  | .fairy, .dragon => 2
  | .fairy, .dark => 2
  | .fairy, .steel => 1/2
  | _, _ => 1

namespace TypeEffectiveness

/-- Modelled from the spec: `effectiveness(attackType, defenderTypes[1..2])`
(§4.1). For a dual-typed defender the multiplier is the product of the two
single-type lookups; the defender's types are given as a list of one or
two entries, as in `TypeEffectiveness::getEffectivenessMultiplier`. -/
def getEffectivenessMultiplier (attackType : PType) (defenderTypes : List PType) : ℚ :=
  defenderTypes.foldl (fun m d => m * typeChart attackType d) 1

end TypeEffectiveness

/-- Modelled from the spec: a Move (§3): name, elemental type, numeric
power (0 for status moves), accuracy (0-100), max PP and current PP
(0..maxPP), signed priority, damage class, and a critical-hit rate tier.
The secondary-effect fields are not needed by the claims under
verification and are omitted. -/
structure Move where
  name : String
  moveType : PType
  power : ℕ
  accuracy : ℕ
  max_pp : ℕ
  current_pp : ℕ
  priority : ℤ
  damage_class : DamageClass
  crit_rate : ℕ
  deriving DecidableEq, Repr

namespace Move

/-- Modelled from the spec: `Move::canUse` — a move is usable exactly when
its current PP is positive (§3: "move unusable at 0"). -/
def canUse (m : Move) : Bool :=
  decide (0 < m.current_pp)

/-- Modelled from the spec: `Move::usePP` — PP is decremented by 1 on use
and never goes below 0 (§3, §8); at 0 PP the call changes nothing, as the
regression test MovePPTrackingPrevention requires. -/
def usePP (m : Move) : Move :=
  if 0 < m.current_pp then { m with current_pp := m.current_pp - 1 } else m

end Move

/-- Modelled from the spec: a Creature ("Pokemon" instance, §3): name, one
or two elemental types, base stats, a level, mutable current HP
(0..max hp), a status condition, and an ordered list of moves. The C++
field names `hp` (the maximum) and `current_hp` are kept. -/
structure Pokemon where
  name : String
  types : List PType
  level : ℕ
  hp : ℤ
  attack : ℕ
  defense : ℕ
  special_attack : ℕ
  special_defense : ℕ
  speed : ℕ
  current_hp : ℤ
  status : StatusCondition
  moves : List Move
  deriving DecidableEq, Repr

namespace Pokemon

/-- Modelled from the spec: a Creature with `current_hp == 0` is fainted;
`isAlive` holds exactly when current HP is positive (§3). -/
def isAlive (p : Pokemon) : Bool :=
  decide (0 < p.current_hp)

/-- Modelled from the spec: `Pokemon::takeDamage` — damage application
never drives `current_hp` below 0 (§3 invariant `0 ≤ current_hp ≤ max_hp`;
§8 "never goes below 0 after any damage/heal application"). -/
def takeDamage (p : Pokemon) (damage : ℤ) : Pokemon :=
  { p with current_hp := max 0 (p.current_hp - damage) }

/-- Modelled from the spec: healing between battles mutates `current_hp`
directly but the invariant `current_hp ≤ max_hp` is maintained (§3, §8
"never exceeds max_hp"): a heal is clamped at the maximum HP. -/
def heal (p : Pokemon) (amount : ℤ) : Pokemon :=
  { p with current_hp := min p.hp (p.current_hp + amount) }

/-- Modelled from the spec: `Pokemon::hasStatusCondition` — whether a
status other than None is active (§3). -/
def hasStatusCondition (p : Pokemon) : Bool :=
  decide (p.status ≠ StatusCondition.NONE)

/-- Modelled from the spec: `Pokemon::applyStatusCondition` — the status
state machine moves from None to the applied condition; application fails
silently (a no-op) if the current status is not None (§3, §4.3). -/
def applyStatusCondition (p : Pokemon) (s : StatusCondition) : Pokemon :=
  if p.status = StatusCondition.NONE then { p with status := s } else p

end Pokemon

/-- Modelled from the spec: a Team (§3) is an ordered collection of
Creatures; the engine only needs "has any creature with current_hp > 0"
and index-based access, so it is embedded as the list of its Pokemon. -/
structure Team where
  pokemon : List Pokemon
  deriving DecidableEq, Repr

namespace Team

/-- Modelled from the spec: `Team::hasAlivePokemon` — whether any creature
on the team has `current_hp > 0` (§3). -/
def hasAlivePokemon (t : Team) : Bool :=
  t.pokemon.any Pokemon.isAlive

end Team

/-- Modelled from the spec: weather conditions (§3): None/Sun/Rain/
Sandstorm/Hail. The C++ enumerator names from the tests are kept. -/
inductive WeatherCondition where
  | NONE | SUNNY | RAIN | SANDSTORM | HAIL
  deriving DecidableEq, Repr

/-- Modelled from the spec: the weather damage multiplier (§4.2): fire
moves are boosted (+50%) in Sun and halved in Rain; water moves are
boosted in Rain and halved in Sun; all other combinations are neutral. -/
def weatherMultiplier (w : WeatherCondition) (moveType : PType) : ℚ :=
  match w, moveType with
  | .SUNNY, .fire => 3/2
  | .RAIN, .fire => 1/2
  | .RAIN, .water => 3/2
  | .SUNNY, .water => 1/2
  | _, _ => 1

namespace Battle

/-- Modelled from the spec: battle outcomes (§4.4): `Ongoing` plus the
three terminal states. The C++ enumerator names are kept. -/
inductive BattleResult where
  | ONGOING | PLAYER_WINS | OPPONENT_WINS | DRAW
  deriving DecidableEq, Repr

/-- Modelled from the spec: `Battle::getBattleResult` (§4.4, §6): the
outcome is determined by which sides still have a living creature; if
either Team has none the battle is terminal from construction onwards
(`OpponentWins`/`PlayerWins` respectively, both empty ⇒ `Draw`). -/
def getBattleResult (playerTeam opponentTeam : Team) : BattleResult :=
  if playerTeam.hasAlivePokemon then
    if opponentTeam.hasAlivePokemon then .ONGOING else .PLAYER_WINS
  else
    if opponentTeam.hasAlivePokemon then .OPPONENT_WINS else .DRAW

/-- Modelled from the spec: `Battle::isBattleOver` (§6): the battle is
over exactly when the result is no longer `Ongoing`. -/
def isBattleOver (playerTeam opponentTeam : Team) : Bool :=
  decide (getBattleResult playerTeam opponentTeam ≠ BattleResult.ONGOING)

end Battle

/-- Modelled from the spec: `estimateDamage(attacker, defender, move,
weather)` (§4.2). For status moves (power 0) it returns 0; a type
effectiveness of 0 also yields 0 independent of every roll. Otherwise
`base = ((2*level/5 + 2) * power * (attackStat/defenseStat)) / 50 + 2`
with the stats chosen by the move's damage class, multiplied by the type
effectiveness, the critical-hit multiplier, the weather multiplier and
the random damage variance factor (the last two passed in as the rolls'
outcomes), and the result is floored to an integer ≥ 1. -/
def estimateDamage (attacker defender : Pokemon) (m : Move)
    (w : WeatherCondition) (critMult variance : ℚ) : ℤ :=
  let eff := TypeEffectiveness.getEffectivenessMultiplier m.moveType defender.types
  if m.power = 0 ∨ eff = 0 then 0
  else
    let attackStat : ℚ := match m.damage_class with
      | .special => attacker.special_attack
      | _ => attacker.attack
    let defenseStat : ℚ := match m.damage_class with
      | .special => defender.special_defense
      | _ => defender.defense
    let base : ℚ :=
      ((2 * (attacker.level : ℚ) / 5 + 2) * (m.power : ℚ) * (attackStat / defenseStat)) / 50 + 2
    max 1 ⌊base * eff * critMult * weatherMultiplier w m.moveType * variance⌋

/-- Modelled from the spec: AI difficulty tiers (§4.5): Easy/Medium/Hard/
Expert, selected by a factory keyed on this enum (§9). -/
inductive Difficulty where
  | EASY | MEDIUM | HARD | EXPERT
  deriving DecidableEq, Repr

/-- Modelled from the spec: the per-turn `BattleState` read view handed to
the AI (§3): each side's active creature plus the weather and turn
number. -/
structure BattleState where
  aiPokemon : Pokemon
  opponentPokemon : Pokemon
  weather : WeatherCondition
  turnNumber : ℕ
  deriving DecidableEq, Repr

/-- Modelled from the spec: the result record of `chooseBestMove` (§4.5):
a move index (or the sentinel -1 when no move is usable) and its score. -/
structure MoveEvaluation where
  moveIndex : ℤ
  score : ℚ
  deriving DecidableEq, Repr

/-- Modelled from the spec: an AI strategy instance (§4.5, §9): a tier tag
plus the injected pseudo-random generator state (§5). Move planning is
deterministic heuristic evaluation and does not consume the generator. -/
structure AIStrategy where
  difficulty : Difficulty
  rngState : ℕ
  deriving DecidableEq, Repr

/-- Modelled from the spec: the AI's per-move heuristic (§4.5): the
estimated expected damage (using expected value — no variance or crit
roll) weighted by the type effectiveness against the opponent. -/
def scoreMove (bs : BattleState) (m : Move) : ℚ :=
  (estimateDamage bs.aiPokemon bs.opponentPokemon m bs.weather 1 1 : ℚ) *
    TypeEffectiveness.getEffectivenessMultiplier m.moveType bs.opponentPokemon.types

/-- Modelled from the spec: `chooseBestMove(battleState)` (§4.5): evaluate
each usable move (PP > 0) and return the best-scoring one's index (first
wins ties), or the sentinel -1 when none is usable so the Orchestrator
falls back to Struggle. The strategy value is returned unchanged: planning
is deterministic and stateless. -/
def chooseBestMove (ai : AIStrategy) (bs : BattleState) : MoveEvaluation × AIStrategy :=
  let usable := bs.aiPokemon.moves.enum.filter (fun im => im.2.canUse)
  match usable with
  | [] => ({ moveIndex := -1, score := 0 }, ai)
  | first :: rest =>
    let best := rest.foldl
      (fun acc im => if scoreMove bs im.2 > scoreMove bs acc.2 then im else acc) first
    ({ moveIndex := (best.1 : ℤ), score := scoreMove bs best.2 }, ai)

/-- Modelled from the spec: the injected pseudo-random generator (§5): a
linear congruential step on a 31-bit state. -/
def lcg (s : ℕ) : ℕ :=
  (1103515245 * s + 12345) % 2147483648

/-- Modelled from the spec: one uniform draw in `[lo, hi]` from the
battle-owned generator, returning the value and the successor state. -/
def randRange (s lo hi : ℕ) : ℕ × ℕ :=
  let s2 := lcg s
  (lo + s2 % (hi - lo + 1), s2)

/-- Modelled from the spec: one recorded entry of a battle's action
sequence (§8 determinism property): acting side, chosen move index (-1
for the Struggle fallback), whether the accuracy roll hit, and the damage
applied. -/
structure TurnAction where
  playerSide : Bool
  moveIndex : ℤ
  hit : Bool
  damage : ℤ
  deriving DecidableEq, Repr

/-- Replaces the element at index `i` by `f` applied to it, leaving other
positions unchanged. -/
def modifyAt {α : Type} (l : List α) (i : ℕ) (f : α → α) : List α :=
  l.enum.map (fun ix => if ix.1 = i then f ix.2 else ix.2)

/-- Modelled from the spec: the active creature of a Team is its first
living member (§3: the Team tracks the front creature; a fainted one may
not remain active, §4.4 forces replacement by the next living one). -/
def findActive (t : Team) : Option (ℕ × Pokemon) :=
  t.pokemon.enum.find? (fun ip => ip.2.isAlive)

/-- Modelled from the spec: execution of one side's chosen action (§4.4
step 3): verify PP via the AI's usable-move filter (sentinel ⇒ Struggle
fallback, recorded with index -1), spend PP, resolve the accuracy roll,
then the variance and critical rolls, compute damage via `estimateDamage`
and apply it to the defending side's active creature. Returns the updated
teams, the generator state after the consumed rolls, and the recorded
action. -/
def execAttack (playerSide : Bool) (difficulty : Difficulty)
    (atkTeam defTeam : Team) (w : WeatherCondition) (turn : ℕ) (rng : ℕ) :
    Team × Team × ℕ × List TurnAction :=
  match findActive atkTeam, findActive defTeam with
  | some (ai, attacker), some (di, defender) =>
    let ev := (chooseBestMove ⟨difficulty, rng⟩ ⟨attacker, defender, w, turn⟩).1
    match attacker.moves.get? ev.moveIndex.toNat with
    | none =>
      -- No usable move: the Struggle fallback applies self-damage (§3).
      let atkTeam2 : Team :=
        ⟨modifyAt atkTeam.pokemon ai (fun p => p.takeDamage (p.hp / 4))⟩
      (atkTeam2, defTeam, rng, [⟨playerSide, -1, true, 0⟩])
    | some m =>
      if ev.moveIndex < 0 then
        let atkTeam2 : Team :=
          ⟨modifyAt atkTeam.pokemon ai (fun p => p.takeDamage (p.hp / 4))⟩
        (atkTeam2, defTeam, rng, [⟨playerSide, -1, true, 0⟩])
      else
        let atkTeam2 : Team :=
          ⟨modifyAt atkTeam.pokemon ai
            (fun p => { p with moves := modifyAt p.moves ev.moveIndex.toNat Move.usePP })⟩
        let (accRoll, r1) := randRange rng 1 100
        if m.accuracy = 0 ∨ accRoll ≤ m.accuracy then
          let (varRoll, r2) := randRange r1 85 100
          let (critRoll, r3) := randRange r2 1 16
          let critMult : ℚ := if critRoll = 1 then 3/2 else 1
          let dmg := estimateDamage attacker defender m w critMult ((varRoll : ℚ) / 100)
          let defTeam2 : Team := ⟨modifyAt defTeam.pokemon di (fun p => p.takeDamage dmg)⟩
          (atkTeam2, defTeam2, r3, [⟨playerSide, ev.moveIndex, true, dmg⟩])
        else
          (atkTeam2, defTeam, r1, [⟨playerSide, ev.moveIndex, false, 0⟩])
  | _, _ => (atkTeam, defTeam, rng, [])

/-- Modelled from the spec: end-of-turn status damage (§4.3): Poison costs
a fixed 1/8 of max HP, Burn a fixed 1/16, applied to each side's active
creature still alive, side A before side B. -/
def statusTick (t : Team) : Team :=
  match findActive t with
  | some (i, p) =>
    match p.status with
    | .POISON => ⟨modifyAt t.pokemon i (fun q => q.takeDamage (q.hp / 8))⟩
    | .BURN => ⟨modifyAt t.pokemon i (fun q => q.takeDamage (q.hp / 16))⟩
    | _ => t
  | none => t

/-- Modelled from the spec: one full turn (§4.4): both sides' actions are
collected from the AI tier, ordered by move priority, then Speed, then a
uniform random coin flip; executed in order with the actor's liveness
revalidated by `execAttack`; then end-of-turn status damage is applied to
side A before side B. -/
def runTurn (playerTeam opponentTeam : Team) (difficulty : Difficulty)
    (w : WeatherCondition) (turn : ℕ) (rng : ℕ) :
    Team × Team × ℕ × List TurnAction :=
  match findActive playerTeam, findActive opponentTeam with
  | some (_, pp), some (_, op) =>
    let pev := (chooseBestMove ⟨difficulty, rng⟩ ⟨pp, op, w, turn⟩).1
    let oev := (chooseBestMove ⟨difficulty, rng⟩ ⟨op, pp, w, turn⟩).1
    let pprio := ((pp.moves.get? pev.moveIndex.toNat).map Move.priority).getD 0
    let oprio := ((op.moves.get? oev.moveIndex.toNat).map Move.priority).getD 0
    let (playerFirst, rng1) :=
      if pprio > oprio then (true, rng)
      else if oprio > pprio then (false, rng)
      else if pp.speed > op.speed then (true, rng)
      else if op.speed > pp.speed then (false, rng)
      else
        let (c, r) := randRange rng 0 1
        (c = 0, r)
    if playerFirst then
      let (pt2, ot2, rng2, a1) := execAttack true difficulty playerTeam opponentTeam w turn rng1
      let (ot3, pt3, rng3, a2) := execAttack false difficulty ot2 pt2 w turn rng2
      (statusTick pt3, statusTick ot3, rng3, a1 ++ a2)
    else
      let (ot2, pt2, rng2, a1) := execAttack false difficulty opponentTeam playerTeam w turn rng1
      let (pt3, ot3, rng3, a2) := execAttack true difficulty pt2 ot2 w turn rng2
      (statusTick pt3, statusTick ot3, rng3, a1 ++ a2)
  | _, _ => (playerTeam, opponentTeam, rng, [])

/-- Modelled from the spec: the turn loop with an external turn-count
safety cap (§5): after every turn the termination check runs (§4.4 step
5); the recorded action sequence and the final teams are returned with
the outcome. -/
def runBattleAux : ℕ → Team → Team → Difficulty → WeatherCondition → ℕ → ℕ →
    List TurnAction → List TurnAction × Team × Team
  | 0, pt, ot, _, _, _, _, acc => (acc, pt, ot)
  | fuel + 1, pt, ot, d, w, turn, rng, acc =>
    if Battle.isBattleOver pt ot then (acc, pt, ot)
    else
      let (pt2, ot2, rng2, acts) := runTurn pt ot d w turn rng
      runBattleAux fuel pt2 ot2 d w (turn + 1) rng2 (acc ++ acts)

/-- Modelled from the spec: a complete seeded battle run (§8 determinism
scenario): same Teams, same AI tier, same seed in — action sequence,
final teams and outcome out. -/
def runBattle (playerTeam opponentTeam : Team) (difficulty : Difficulty)
    (seed fuel : ℕ) : List TurnAction × Team × Team × Battle.BattleResult :=
  let (acts, pt, ot) :=
    runBattleAux fuel playerTeam opponentTeam difficulty .NONE 1 seed []
  (acts, pt, ot, Battle.getBattleResult pt ot)

/-- Modelled from the spec: a health-changed battle event (§6): the
affected creature's name, old and new health, the damage span, and a
reason tag, as built by `createHealthChangeEvent`. -/
structure HealthChangeEvent where
  pokemonName : String
  oldHealth : ℤ
  newHealth : ℤ
  damage : ℤ
  reason : String
  deriving DecidableEq, Repr

/-- Modelled from the spec: `BattleEventManager::createHealthChangeEvent`
(§6): packages the mutation into an event record; the damage field is the
drop from old to new health. -/
def createHealthChangeEvent (pokemonName : String) (oldHealth newHealth : ℤ)
    (reason : String) : HealthChangeEvent :=
  ⟨pokemonName, oldHealth, newHealth, oldHealth - newHealth, reason⟩

/-- Modelled from the spec: an event listener (§2, §6): display-layer code
holding its observable callback count; a broken listener throws from its
callback, modelled by the flag the tests' mock listener uses
(`shouldThrowException`). -/
structure EventListener where
  id : ℕ
  shouldThrowException : Bool
  healthChangedCount : ℕ
  deriving DecidableEq, Repr

/-- Modelled from the spec: one listener's `onHealthChanged` callback:
either it processes the event (its count grows) or it throws, surfaced
here as `Except.error`. -/
def handleHealthChanged (l : EventListener) (e : HealthChangeEvent) :
    Except String EventListener :=
  if l.shouldThrowException then Except.error e.reason
  else Except.ok { l with healthChangedCount := l.healthChangedCount + 1 }

/-- Modelled from the spec:
`BattleEventManager::notifyHealthChanged` (§5, §9): synchronous fan-out to
every subscribed listener with a local catch-and-continue policy per
notification — a listener that throws is left as it was, the exception is
discarded, and the remaining listeners are still invoked; the notify call
itself always returns normally (its type carries no error case). -/
def notifyHealthChanged (ls : List EventListener) (e : HealthChangeEvent) :
    List EventListener :=
  ls.map (fun l =>
    match handleHealthChanged l e with
    | Except.ok l2 => l2
    | Except.error _ => l)

/-- Modelled from the spec: `BattleEventManager`'s listener registry (§9):
the ordered list of subscribed listeners, held by identity (a shared
pointer in the C++ interface, embedded as a numeric id with `none` for a
null pointer). -/
structure BattleEventManager where
  listeners : List ℕ
  deriving DecidableEq, Repr

namespace BattleEventManager

/-- Modelled from the spec: `BattleEventManager::subscribe` — registers a
listener; a null listener and a listener already present are ignored, as
the tests ListenerSubscription require. -/
def subscribe (mgr : BattleEventManager) (l : Option ℕ) : BattleEventManager :=
  match l with
  | none => mgr
  | some x => if x ∈ mgr.listeners then mgr else ⟨mgr.listeners ++ [x]⟩

/-- Modelled from the spec: `BattleEventManager::unsubscribe` — removes a
listener if present; a null or unknown listener leaves the registry
unchanged, as the tests ListenerUnsubscription require. -/
def unsubscribe (mgr : BattleEventManager) (l : Option ℕ) : BattleEventManager :=
  match l with
  | none => mgr
  | some x => ⟨mgr.listeners.erase x⟩

/-- Modelled from the spec: `BattleEventManager::getListenerCount`. -/
def getListenerCount (mgr : BattleEventManager) : ℕ :=
  mgr.listeners.length

/-- Modelled from the spec: `BattleEventManager::hasListeners`. -/
def hasListeners (mgr : BattleEventManager) : Bool :=
  decide (mgr.listeners ≠ [])

end BattleEventManager

namespace MoveTypeMapping

/-- Modelled from the spec: the static move-name → elemental-type table of
`MoveTypeMapping` (a collaborator of the data layer, §6); the entries are
the ones pinned by test_move_type_mapping.cpp BasicMoveTypeRetrieval, with
keys stored in lower case — the lookup is case-sensitive. -/
def moveTypeMap : List (String × String) :=
  [("tackle", "normal"),
   ("flamethrower", "fire"),
   ("hydro-pump", "water"),
   ("thunderbolt", "electric"),
   ("vine-whip", "grass"),
   ("ice-beam", "ice"),
   ("karate-chop", "fighting"),
   ("poison-sting", "poison"),
   ("earthquake", "ground"),
   ("wing-attack", "flying"),
   ("confusion", "psychic"),
   ("string-shot", "bug"),
   ("rock-throw", "rock"),
   ("lick", "ghost"),
   ("dragon-rage", "dragon"),
   ("bite", "dark"),
   ("metal-claw", "steel"),
   ("sweet-kiss", "fairy")]

/-- Modelled from the spec: `MoveTypeMapping::getMoveType` — total over
strings: a known move name maps to its elemental type, every other name
(unknown, empty, or a known name in a different letter case) defaults to
"normal", as tests BasicMoveTypeRetrieval and DefaultTypeForUnknownMoves
require. -/
def getMoveType (moveName : String) : String :=
  (moveTypeMap.lookup moveName).getD "normal"

end MoveTypeMapping

/-! Concrete fixtures mirroring the ones TestUtils builds for the unit
tests, used to instantiate the theorems below. -/

/-- Fixture: a special electric move as in the AI tests. -/
def thunderbolt : Move :=
  { name := "thunderbolt", moveType := PType.electric, power := 90, accuracy := 100,
    max_pp := 15, current_pp := 15, priority := 0, damage_class := DamageClass.special,
    crit_rate := 0 }

/-- Fixture: a plain physical move. -/
def tackle : Move :=
  { name := "tackle", moveType := PType.normal, power := 40, accuracy := 100,
    max_pp := 35, current_pp := 35, priority := 0, damage_class := DamageClass.physical,
    crit_rate := 0 }

/-- Fixture: the two-PP move of the MovePPTrackingPrevention regression
test. -/
def limitedMove : Move :=
  { name := "limited", moveType := PType.normal, power := 50, accuracy := 100,
    max_pp := 2, current_pp := 2, priority := 0, damage_class := DamageClass.physical,
    crit_rate := 0 }

/-- Fixture: an electric-typed creature at full health. -/
def electricPokemon : Pokemon :=
  { name := "electric-user", types := [PType.electric], level := 50, hp := 100,
    attack := 80, defense := 70, special_attack := 90, special_defense := 85,
    speed := 75, current_hp := 100, status := StatusCondition.NONE,
    moves := [thunderbolt, tackle] }

/-- Fixture: a water-typed creature at full health. -/
def waterPokemon : Pokemon :=
  { name := "water-user", types := [PType.water], level := 50, hp := 100,
    attack := 80, defense := 70, special_attack := 90, special_defense := 85,
    speed := 70, current_hp := 100, status := StatusCondition.NONE,
    moves := [tackle] }

/-- Single-type lookups only produce the four base multipliers. -/
lemma typeChart_discrete (a d : PType) :
    typeChart a d = 0 ∨ typeChart a d = 1/2 ∨ typeChart a d = 1 ∨ typeChart a d = 2 := by
  cases a <;> cases d <;>
    first
      | exact Or.inl rfl
      | exact Or.inr (Or.inl rfl)
      | exact Or.inr (Or.inr (Or.inl rfl))
      | exact Or.inr (Or.inr (Or.inr rfl))

/-- The four base multipliers sit inside the discrete six-element set. -/
lemma base_mem_discrete (x : ℚ)
    (hx : x = 0 ∨ x = 1/2 ∨ x = 1 ∨ x = 2) :
    x = 0 ∨ x = 1/4 ∨ x = 1/2 ∨ x = 1 ∨ x = 2 ∨ x = 4 := by
  tauto

/-- Products of base multipliers stay in the discrete six-element set. -/
lemma mul_mem_discrete (x y : ℚ)
    (hx : x = 0 ∨ x = 1/2 ∨ x = 1 ∨ x = 2)
    (hy : y = 0 ∨ y = 1/2 ∨ y = 1 ∨ y = 2) :
    x * y = 0 ∨ x * y = 1/4 ∨ x * y = 1/2 ∨ x * y = 1 ∨ x * y = 2 ∨ x * y = 4 := by
  rcases hx with rfl | rfl | rfl | rfl <;> rcases hy with rfl | rfl | rfl | rfl <;> norm_num

/-- Effectiveness against a single-typed defender is the chart entry. -/
lemma getEffectivenessMultiplier_single (a d : PType) :
    TypeEffectiveness.getEffectivenessMultiplier a [d] = typeChart a d := by
  simp [TypeEffectiveness.getEffectivenessMultiplier]

/-- Effectiveness against a dual-typed defender is the product of the two
chart entries. -/
lemma getEffectivenessMultiplier_pair (a d1 d2 : PType) :
    TypeEffectiveness.getEffectivenessMultiplier a [d1, d2] =
      typeChart a d1 * typeChart a d2 := by
  simp [TypeEffectiveness.getEffectivenessMultiplier, mul_assoc]

/-- C2: for every attacking type and every defender with one or two types
the effectiveness lookup returns a multiplier in {0, 1/4, 1/2, 1, 2, 4};
for a dual-typed defender it is the product of the two single-type
multipliers; and fire vs grass is 2, fire vs water 1/2, normal vs ghost 0,
normal vs normal 1, electric vs fire/flying 0. -/
theorem getEffectivenessMultiplier_spec :
    (∀ a d1 d2 : PType,
      (TypeEffectiveness.getEffectivenessMultiplier a [d1] = 0 ∨
       TypeEffectiveness.getEffectivenessMultiplier a [d1] = 1/4 ∨
       TypeEffectiveness.getEffectivenessMultiplier a [d1] = 1/2 ∨
       TypeEffectiveness.getEffectivenessMultiplier a [d1] = 1 ∨
       TypeEffectiveness.getEffectivenessMultiplier a [d1] = 2 ∨
       TypeEffectiveness.getEffectivenessMultiplier a [d1] = 4) ∧
      (TypeEffectiveness.getEffectivenessMultiplier a [d1, d2] = 0 ∨
       TypeEffectiveness.getEffectivenessMultiplier a [d1, d2] = 1/4 ∨
       TypeEffectiveness.getEffectivenessMultiplier a [d1, d2] = 1/2 ∨
       TypeEffectiveness.getEffectivenessMultiplier a [d1, d2] = 1 ∨
       TypeEffectiveness.getEffectivenessMultiplier a [d1, d2] = 2 ∨
       TypeEffectiveness.getEffectivenessMultiplier a [d1, d2] = 4) ∧
      TypeEffectiveness.getEffectivenessMultiplier a [d1, d2] =
        TypeEffectiveness.getEffectivenessMultiplier a [d1] *
          TypeEffectiveness.getEffectivenessMultiplier a [d2]) ∧
    TypeEffectiveness.getEffectivenessMultiplier PType.fire [PType.grass] = 2 ∧
    TypeEffectiveness.getEffectivenessMultiplier PType.fire [PType.water] = 1/2 ∧
    TypeEffectiveness.getEffectivenessMultiplier PType.normal [PType.ghost] = 0 ∧
    TypeEffectiveness.getEffectivenessMultiplier PType.normal [PType.normal] = 1 ∧
    TypeEffectiveness.getEffectivenessMultiplier PType.electric [PType.fire, PType.flying] = 0 := by
  refine ⟨fun a d1 d2 => ⟨?_, ?_, ?_⟩, ?_, ?_, ?_, ?_, ?_⟩
  · rw [getEffectivenessMultiplier_single]
    exact base_mem_discrete _ (typeChart_discrete a d1)
  · rw [getEffectivenessMultiplier_pair]
    exact mul_mem_discrete _ _ (typeChart_discrete a d1) (typeChart_discrete a d2)
  · rw [getEffectivenessMultiplier_pair, getEffectivenessMultiplier_single,
      getEffectivenessMultiplier_single]
  · rw [getEffectivenessMultiplier_single]; exact rfl
  · rw [getEffectivenessMultiplier_single]; exact rfl
  · rw [getEffectivenessMultiplier_single]; exact rfl
  · rw [getEffectivenessMultiplier_single]; exact rfl
  · rw [getEffectivenessMultiplier_pair,
      show typeChart PType.electric PType.fire = 1 from rfl,
      show typeChart PType.electric PType.flying = 0 from rfl]
    norm_num


/-- C1: a battle whose player Team starts with no living creature is
immediately terminal with `OPPONENT_WINS`; an empty opponent Team gives
`PLAYER_WINS`; both empty give `DRAW`; in each case `isBattleOver` is
already true. -/
theorem battle_empty_team_terminal (p o : Team) :
    ((p.hasAlivePokemon = false ∨ o.hasAlivePokemon = false) →
      Battle.isBattleOver p o = true) ∧
    (p.hasAlivePokemon = false → o.hasAlivePokemon = true →
      Battle.getBattleResult p o = Battle.BattleResult.OPPONENT_WINS) ∧
    (p.hasAlivePokemon = true → o.hasAlivePokemon = false →
      Battle.getBattleResult p o = Battle.BattleResult.PLAYER_WINS) ∧
    (p.hasAlivePokemon = false → o.hasAlivePokemon = false →
      Battle.getBattleResult p o = Battle.BattleResult.DRAW) := by
  cases hp : p.hasAlivePokemon <;> cases ho : o.hasAlivePokemon <;>
    simp [Battle.isBattleOver, Battle.getBattleResult, hp, ho]

/-- Witness for C1: the empty team versus a healthy one is terminal with
the opponent winning at construction time. -/
theorem battle_empty_team_terminal_witness :
    Team.hasAlivePokemon ⟨[]⟩ = false ∧
    Team.hasAlivePokemon ⟨[electricPokemon]⟩ = true ∧
    Battle.isBattleOver ⟨[]⟩ ⟨[electricPokemon]⟩ = true ∧
    Battle.getBattleResult ⟨[]⟩ ⟨[electricPokemon]⟩ =
      Battle.BattleResult.OPPONENT_WINS :=
  ⟨by decide, by decide,
    (battle_empty_team_terminal ⟨[]⟩ ⟨[electricPokemon]⟩).1 (Or.inl (by decide)),
    (battle_empty_team_terminal ⟨[]⟩ ⟨[electricPokemon]⟩).2.1 (by decide) (by decide)⟩

/-- C3: damage estimation is never negative, returns 0 for status moves
(power 0) and whenever the type effectiveness is 0 — for every critical
and variance roll — and returns at least 1 for every move with positive
power against a defender with positive effectiveness. -/
theorem estimateDamage_spec (attacker defender : Pokemon) (m : Move)
    (w : WeatherCondition) (critMult variance : ℚ) :
    0 ≤ estimateDamage attacker defender m w critMult variance ∧
    (m.power = 0 → estimateDamage attacker defender m w critMult variance = 0) ∧
    (TypeEffectiveness.getEffectivenessMultiplier m.moveType defender.types = 0 →
      estimateDamage attacker defender m w critMult variance = 0) ∧
    (0 < m.power →
      0 < TypeEffectiveness.getEffectivenessMultiplier m.moveType defender.types →
      1 ≤ estimateDamage attacker defender m w critMult variance) := by
  refine ⟨?_, fun h0 => ?_, fun he => ?_, fun hp he => ?_⟩
  · simp only [estimateDamage]
    split
    · exact le_refl 0
    · exact le_trans zero_le_one (le_max_left 1 _)
  · simp [estimateDamage, h0]
  · simp [estimateDamage, he]
  · simp only [estimateDamage]
    rw [if_neg]
    · exact le_max_left 1 _
    · push_neg
      exact ⟨by omega, ne_of_gt he⟩

/-- Witness for C3: thunderbolt (power 90) against a water-typed defender
has positive effectiveness and the estimate is at least 1. -/
theorem estimateDamage_spec_witness :
    0 < thunderbolt.power ∧
    0 < TypeEffectiveness.getEffectivenessMultiplier thunderbolt.moveType waterPokemon.types ∧
    1 ≤ estimateDamage electricPokemon waterPokemon thunderbolt WeatherCondition.NONE 1 1 := by
  have heff : TypeEffectiveness.getEffectivenessMultiplier thunderbolt.moveType waterPokemon.types = 2 := by
    show TypeEffectiveness.getEffectivenessMultiplier PType.electric [PType.water] = 2
    simp only [TypeEffectiveness.getEffectivenessMultiplier, List.foldl_cons,
      List.foldl_nil, one_mul]
    exact rfl
  refine ⟨by decide, by rw [heff]; norm_num, ?_⟩
  exact (estimateDamage_spec electricPokemon waterPokemon thunderbolt
    WeatherCondition.NONE 1 1).2.2.2 (by decide) (by rw [heff]; norm_num)

/-- C4: damage and heal application preserve `0 ≤ current_hp ≤ max_hp`;
a creature hit for exactly its remaining HP ends at 0 and is no longer
alive. -/
theorem pokemon_hp_invariant (p : Pokemon) (d h : ℤ)
    (hlo : 0 ≤ p.current_hp) (hhi : p.current_hp ≤ p.hp)
    (hd : 0 ≤ d) (hh : 0 ≤ h) :
    (0 ≤ (p.takeDamage d).current_hp ∧ (p.takeDamage d).current_hp ≤ (p.takeDamage d).hp) ∧
    (0 ≤ (p.heal h).current_hp ∧ (p.heal h).current_hp ≤ (p.heal h).hp) ∧
    (p.takeDamage p.current_hp).current_hp = 0 ∧
    (p.takeDamage p.current_hp).isAlive = false := by
  refine ⟨⟨?_, ?_⟩, ⟨?_, ?_⟩, ?_, ?_⟩ <;>
    simp [Pokemon.takeDamage, Pokemon.heal, Pokemon.isAlive] <;> omega

/-- Witness for C4: the electric fixture at 100/100 HP keeps the invariant
under a 30-damage hit and a 20-point heal, and hits for its remaining HP
faint it. -/
theorem pokemon_hp_invariant_witness :
    (0 ≤ electricPokemon.current_hp ∧ electricPokemon.current_hp ≤ electricPokemon.hp ∧
      (0 : ℤ) ≤ 30 ∧ (0 : ℤ) ≤ 20) ∧
    ((0 ≤ (electricPokemon.takeDamage 30).current_hp ∧
      (electricPokemon.takeDamage 30).current_hp ≤ (electricPokemon.takeDamage 30).hp) ∧
     (0 ≤ (electricPokemon.heal 20).current_hp ∧
      (electricPokemon.heal 20).current_hp ≤ (electricPokemon.heal 20).hp) ∧
     (electricPokemon.takeDamage electricPokemon.current_hp).current_hp = 0 ∧
     (electricPokemon.takeDamage electricPokemon.current_hp).isAlive = false) :=
  ⟨⟨by decide, by decide, by decide, by decide⟩,
    pokemon_hp_invariant electricPokemon 30 20 (by decide) (by decide) (by decide) (by decide)⟩

/-- C5: applying any second status condition to a creature that already
carries one is a no-op — the status (and the whole creature) is
unchanged. -/
theorem status_second_application_noop (p : Pokemon) (s : StatusCondition)
    (h : p.status ≠ StatusCondition.NONE) :
    (p.applyStatusCondition s).status = p.status ∧ p.applyStatusCondition s = p := by
  simp [Pokemon.applyStatusCondition, h]

/-- Witness for C5: Poison then Paralysis leaves Poison, as in the
StatusConditionStackingPrevention regression test. -/
theorem status_second_application_noop_witness :
    (electricPokemon.applyStatusCondition StatusCondition.POISON).status =
      StatusCondition.POISON ∧
    ((electricPokemon.applyStatusCondition StatusCondition.POISON).applyStatusCondition
        StatusCondition.PARALYSIS).status = StatusCondition.POISON := by
  refine ⟨by decide, ?_⟩
  have h := status_second_application_noop
    (electricPokemon.applyStatusCondition StatusCondition.POISON)
    StatusCondition.PARALYSIS (by decide)
  rw [h.1]
  decide

/-- C6: `current_pp` stays within 0..maxPP: `usePP` decrements by exactly
1 when positive and is the identity at 0, and `canUse` holds exactly when
`current_pp` is positive. -/
theorem move_pp_spec (m : Move) (hle : m.current_pp ≤ m.max_pp) :
    (m.usePP).current_pp ≤ (m.usePP).max_pp ∧
    (0 < m.current_pp → (m.usePP).current_pp = m.current_pp - 1) ∧
    (m.current_pp = 0 → m.usePP = m) ∧
    (m.canUse = true ↔ 0 < m.current_pp) := by
  refine ⟨?_, fun h => ?_, fun h => ?_, ?_⟩
  · simp only [Move.usePP]
    split
    · simp
      omega
    · exact hle
  · simp [Move.usePP, h]
  · simp [Move.usePP, h]
  · simp [Move.canUse]

/-- Witness for C6: the two-PP fixture decrements to 1 on use and is
usable exactly while PP is positive. -/
theorem move_pp_spec_witness :
    limitedMove.current_pp ≤ limitedMove.max_pp ∧
    (limitedMove.usePP).current_pp = limitedMove.current_pp - 1 ∧
    (limitedMove.canUse = true ↔ 0 < limitedMove.current_pp) :=
  ⟨by decide, (move_pp_spec limitedMove (by decide)).2.1 (by decide),
    (move_pp_spec limitedMove (by decide)).2.2.2⟩

/-- C7: AI decisions are deterministic — a second `chooseBestMove` call on
the same strategy and battle state yields the same move index and score
(the strategy state returned by the first call is unchanged) — and two
runs of an identical battle scenario (equal Teams, equal tier, equal seed)
produce identical action sequences, final teams and outcome. -/
theorem ai_battle_determinism (ai : AIStrategy) (bs : BattleState)
    (pt1 ot1 pt2 ot2 : Team) (d1 d2 : Difficulty) (s1 s2 fuel : ℕ)
    (hpt : pt1 = pt2) (hot : ot1 = ot2) (hd : d1 = d2) (hs : s1 = s2) :
    ((chooseBestMove (chooseBestMove ai bs).2 bs).1.moveIndex =
        (chooseBestMove ai bs).1.moveIndex ∧
      (chooseBestMove (chooseBestMove ai bs).2 bs).1.score =
        (chooseBestMove ai bs).1.score) ∧
    runBattle pt1 ot1 d1 s1 fuel = runBattle pt2 ot2 d2 s2 fuel := by
  subst hpt hot hd hs
  have hsnd : (chooseBestMove ai bs).2 = ai := by
    simp only [chooseBestMove]
    split <;> rfl
  rw [hsnd]
  exact ⟨⟨rfl, rfl⟩, rfl⟩

/-- Witness for C7: two runs of the electric-versus-water scenario with
tier Expert and seed 42 coincide, as do two successive move choices. -/
theorem ai_battle_determinism_witness :
    ((chooseBestMove (chooseBestMove ⟨Difficulty.EXPERT, 42⟩
        ⟨electricPokemon, waterPokemon, WeatherCondition.NONE, 1⟩).2
        ⟨electricPokemon, waterPokemon, WeatherCondition.NONE, 1⟩).1.moveIndex =
      (chooseBestMove ⟨Difficulty.EXPERT, 42⟩
        ⟨electricPokemon, waterPokemon, WeatherCondition.NONE, 1⟩).1.moveIndex ∧
     (chooseBestMove (chooseBestMove ⟨Difficulty.EXPERT, 42⟩
        ⟨electricPokemon, waterPokemon, WeatherCondition.NONE, 1⟩).2
        ⟨electricPokemon, waterPokemon, WeatherCondition.NONE, 1⟩).1.score =
      (chooseBestMove ⟨Difficulty.EXPERT, 42⟩
        ⟨electricPokemon, waterPokemon, WeatherCondition.NONE, 1⟩).1.score) ∧
    runBattle ⟨[electricPokemon]⟩ ⟨[waterPokemon]⟩ Difficulty.EXPERT 42 5 =
      runBattle ⟨[electricPokemon]⟩ ⟨[waterPokemon]⟩ Difficulty.EXPERT 42 5 :=
  ai_battle_determinism ⟨Difficulty.EXPERT, 42⟩
    ⟨electricPokemon, waterPokemon, WeatherCondition.NONE, 1⟩
    ⟨[electricPokemon]⟩ ⟨[waterPokemon]⟩ ⟨[electricPokemon]⟩ ⟨[waterPokemon]⟩
    Difficulty.EXPERT Difficulty.EXPERT 42 42 5 rfl rfl rfl rfl

/-- C8: event notification swallows listener exceptions: fan-out reaches
every subscribed listener (the output has one entry per listener), a
throwing listener placed anywhere leaves the deliveries to everyone
before and after it exactly as they would be without interference, and a
non-throwing listener at any position always receives the event (its
callback count grows by one). -/
theorem notify_exception_isolation (ls pre post : List EventListener)
    (bad l : EventListener) (e : HealthChangeEvent) (i : ℕ)
    (hbad : bad.shouldThrowException = true) :
    (notifyHealthChanged ls e).length = ls.length ∧
    notifyHealthChanged (pre ++ bad :: post) e =
      notifyHealthChanged pre e ++ bad :: notifyHealthChanged post e ∧
    (ls[i]? = some l → l.shouldThrowException = false →
      (notifyHealthChanged ls e)[i]? =
        some { l with healthChangedCount := l.healthChangedCount + 1 }) := by
  refine ⟨?_, ?_, fun hget hl => ?_⟩
  · simp [notifyHealthChanged]
  · simp [notifyHealthChanged, handleHealthChanged, hbad]
  · simp [notifyHealthChanged, List.getElem?_map, hget, handleHealthChanged, hl]

/-- Witness for C8: with three subscribed listeners of which the middle
one throws, notification still reaches the first and third, whose counts
each grow to 1, and the fan-out covers all three. -/
theorem notify_exception_isolation_witness :
    EventListener.shouldThrowException ⟨2, true, 0⟩ = true ∧
    (notifyHealthChanged [⟨1, false, 0⟩, ⟨2, true, 0⟩, ⟨3, false, 0⟩]
        (createHealthChangeEvent "pikachu" 100 80 "damage")).length = 3 ∧
    (notifyHealthChanged [⟨1, false, 0⟩, ⟨2, true, 0⟩, ⟨3, false, 0⟩]
        (createHealthChangeEvent "pikachu" 100 80 "damage"))[0]? =
      some ⟨1, false, 1⟩ ∧
    (notifyHealthChanged [⟨1, false, 0⟩, ⟨2, true, 0⟩, ⟨3, false, 0⟩]
        (createHealthChangeEvent "pikachu" 100 80 "damage"))[2]? =
      some ⟨3, false, 1⟩ := by
  have h := notify_exception_isolation
    [⟨1, false, 0⟩, ⟨2, true, 0⟩, ⟨3, false, 0⟩] [⟨1, false, 0⟩] [⟨3, false, 0⟩]
    ⟨2, true, 0⟩ ⟨1, false, 0⟩ (createHealthChangeEvent "pikachu" 100 80 "damage") 0 rfl
  have h2 := notify_exception_isolation
    [⟨1, false, 0⟩, ⟨2, true, 0⟩, ⟨3, false, 0⟩] [⟨1, false, 0⟩] [⟨3, false, 0⟩]
    ⟨2, true, 0⟩ ⟨3, false, 0⟩ (createHealthChangeEvent "pikachu" 100 80 "damage") 2 rfl
  exact ⟨rfl, h.1, h.2.2 rfl rfl, h2.2.2 rfl rfl⟩

/-- C9: the listener registry treats degenerate requests as no-ops:
subscribing an already-subscribed or null listener leaves the count (and
the registry) unchanged, and unsubscribing a null or never-subscribed
listener leaves the registered listeners unchanged. -/
theorem listener_registry_noop (m : BattleEventManager) (x y : ℕ)
    (hx : x ∈ m.listeners) (hy : y ∉ m.listeners) :
    m.subscribe (some x) = m ∧
    (m.subscribe (some x)).getListenerCount = m.getListenerCount ∧
    m.subscribe none = m ∧
    m.unsubscribe none = m ∧
    (m.unsubscribe (some y)).listeners = m.listeners := by
  have hsub : m.subscribe (some x) = m := by
    simp [BattleEventManager.subscribe, hx]
  refine ⟨hsub, by rw [hsub], rfl, rfl, ?_⟩
  simp [BattleEventManager.unsubscribe, List.erase_of_not_mem hy]

/-- Witness for C9: in the registry holding listeners 1, 2, 3,
re-subscribing 2, subscribing null, unsubscribing null and unsubscribing
the never-registered 7 all leave it at the same three listeners. -/
theorem listener_registry_noop_witness :
    (2 ∈ BattleEventManager.listeners ⟨[1, 2, 3]⟩ ∧
      7 ∉ BattleEventManager.listeners ⟨[1, 2, 3]⟩) ∧
    (BattleEventManager.subscribe ⟨[1, 2, 3]⟩ (some 2) = ⟨[1, 2, 3]⟩ ∧
     (BattleEventManager.subscribe ⟨[1, 2, 3]⟩ (some 2)).getListenerCount =
       BattleEventManager.getListenerCount ⟨[1, 2, 3]⟩ ∧
     BattleEventManager.subscribe ⟨[1, 2, 3]⟩ none = ⟨[1, 2, 3]⟩ ∧
     BattleEventManager.unsubscribe ⟨[1, 2, 3]⟩ none = ⟨[1, 2, 3]⟩ ∧
     (BattleEventManager.unsubscribe ⟨[1, 2, 3]⟩ (some 7)).listeners =
       BattleEventManager.listeners ⟨[1, 2, 3]⟩) :=
  ⟨⟨by decide, by decide⟩,
    listener_registry_noop ⟨[1, 2, 3]⟩ 2 7 (by decide) (by decide)⟩

/-- C10: `getMoveType` is total with default "normal": any name missing
from the table (including the empty string and known names in a different
letter case — the lookup is case-sensitive) maps to "normal", and each
known move name maps to its elemental type. -/
theorem getMoveType_spec (s : String)
    (h : MoveTypeMapping.moveTypeMap.lookup s = none) :
    MoveTypeMapping.getMoveType s = "normal" ∧
    MoveTypeMapping.getMoveType "tackle" = "normal" ∧
    MoveTypeMapping.getMoveType "flamethrower" = "fire" ∧
    MoveTypeMapping.getMoveType "hydro-pump" = "water" ∧
    MoveTypeMapping.getMoveType "thunderbolt" = "electric" ∧
    MoveTypeMapping.getMoveType "vine-whip" = "grass" ∧
    MoveTypeMapping.getMoveType "ice-beam" = "ice" ∧
    MoveTypeMapping.getMoveType "karate-chop" = "fighting" ∧
    MoveTypeMapping.getMoveType "poison-sting" = "poison" ∧
    MoveTypeMapping.getMoveType "earthquake" = "ground" ∧
    MoveTypeMapping.getMoveType "wing-attack" = "flying" ∧
    MoveTypeMapping.getMoveType "confusion" = "psychic" ∧
    MoveTypeMapping.getMoveType "string-shot" = "bug" ∧
    MoveTypeMapping.getMoveType "rock-throw" = "rock" ∧
    MoveTypeMapping.getMoveType "lick" = "ghost" ∧
    MoveTypeMapping.getMoveType "dragon-rage" = "dragon" ∧
    MoveTypeMapping.getMoveType "bite" = "dark" ∧
    MoveTypeMapping.getMoveType "metal-claw" = "steel" ∧
    MoveTypeMapping.getMoveType "sweet-kiss" = "fairy" ∧
    MoveTypeMapping.getMoveType "" = "normal" ∧
    MoveTypeMapping.getMoveType "TACKLE" = "normal" ∧
    MoveTypeMapping.getMoveType "Tackle" = "normal" := by
  refine ⟨?_, rfl, rfl, rfl, rfl, rfl, rfl, rfl, rfl, rfl, rfl, rfl, rfl, rfl,
    rfl, rfl, rfl, rfl, rfl, rfl, rfl, rfl⟩
  simp [MoveTypeMapping.getMoveType, h]

/-- Witness for C10: "nonexistent-move" is not in the table and defaults
to "normal". -/
theorem getMoveType_spec_witness :
    MoveTypeMapping.moveTypeMap.lookup "nonexistent-move" = none ∧
    MoveTypeMapping.getMoveType "nonexistent-move" = "normal" :=
  ⟨rfl, (getMoveType_spec "nonexistent-move" rfl).1⟩
